import Mathlib

/-!
Shallow embedding of the MONSMIN/WEB_HW_14 contacts backend
(`src/database/models.py`, `src/repository/contact.py`,
`src/repository/users.py`, `src/schemas.py`, `src/routes/contact.py`,
`src/routes/auth.py`) together with proofs about its route and
repository operations.

Modelling conventions:
* calendar dates are day ordinals (`Nat`): SQL compares stored dates by
  their linear order, which the ordinal order mirrors;
* the database is a pair of row lists (`users`, `contacts`); a committed
  mutation is a new `DB` value, and every stateful operation returns its
  result together with the post-state;
* Python exceptions are the `PyErr` error type of `Except`; a raised
  `fastapi.HTTPException` is `PyErr.httpError code detail`, every other
  exception constructor corresponds to the named Python/SQLAlchemy
  exception class and surfaces to the HTTP client as a server error,
  never as the route's declared status;
* the ambient clock (`datetime.now().date()` / `date.today()`) is an
  explicit `today` argument;
* the authentication-service primitives (`src/services/auth.py` is not
  part of the repository sources; only its call sites are) are abstract
  function parameters: a password hasher, a password verifier, token
  factories, and token decoders that return the embedded subject email.
-/

namespace ContactsApp

/-- Calendar dates as day ordinals; the SQL date order is the `Nat` order. -/
abbrev Date := Nat

/-- Python exceptions observable at a route boundary.  `httpError` is a
`fastapi.HTTPException` (rendered with its status code); every other
constructor is an ordinary exception class and renders as a 500-class
server error. -/
inductive PyErr where
  | typeError
  | attributeError
  | multipleResultsFound
  | unmappedInstanceError
  | httpError (code : Nat) (detail : String)
  deriving DecidableEq, Repr

/-- Row of the `users` table (`src/database/models.py`, class `User`). -/
structure User where
  id : Nat
  username : String
  email : String
  password : String
  avatar : Option String
  refresh_token : Option String
  confirmed : Bool
  deriving DecidableEq, Repr

/-- Row of the `contacts` table (`src/database/models.py`, class `Contact`). -/
structure Contact where
  id : Nat
  first_name : String
  last_name : String
  email : String
  phone_number : String
  birthday : Date
  created_date : Option Date
  update_date : Option Date
  user_id : Option Nat
  deriving DecidableEq, Repr

/-- The persisted state: the two tables. -/
structure DB where
  users : List User
  contacts : List Contact
  deriving DecidableEq, Repr

/-- `Result.scalar_one_or_none()`: `none` on an empty result set, the row on a
singleton, and a raised `MultipleResultsFound` on anything larger. -/
def scalarOneOrNone {α : Type} (rows : List α) : Except PyErr (Option α) :=
  match rows with
  | [] => Except.ok none
  | [a] => Except.ok (some a)
  | _ => Except.error PyErr.multipleResultsFound

/-- `Result.scalars().first()`: the first row, if any. -/
def scalarsFirst {α : Type} (rows : List α) : Option α :=
  rows.head?

/-- `Select.where`: its criteria are positional-only; a call that passes any
keyword argument (here recorded by name) raises `TypeError` before any query
is built or executed. -/
def selectWhere {α : Type} (rows : List α) (crit : α → Bool)
    (kwargs : List String) : Except PyErr (List α) :=
  match kwargs with
  | [] => Except.ok (rows.filter crit)
  | _ => Except.error PyErr.typeError

/-- A Python value flowing into a dynamically-typed parameter slot: either the
database session or a mapped `User` instance. -/
inductive PyVal where
  | sess (db : DB)
  | usr (u : User)

/-- `select(Contact).filter_by(user=x)`: comparing the `user` relationship
against anything but a mapped `User` instance raises
(`UnmappedInstanceError`) while the clause is being built. -/
def contactUserCriterion (v : PyVal) : Except PyErr (Contact → Bool) :=
  match v with
  | PyVal.usr u => Except.ok (fun c => c.user_id == some u.id)
  | _ => Except.error PyErr.unmappedInstanceError

/-- `await db.execute(sq)` for a `select(Contact)` statement: attribute lookup
of `execute` on anything but a session raises `AttributeError`. -/
def executeContacts (v : PyVal) (crit : Contact → Bool) :
    Except PyErr (List Contact) :=
  match v with
  | PyVal.sess db => Except.ok (db.contacts.filter crit)
  | _ => Except.error PyErr.attributeError

/-! ## Contact repository (`src/repository/contact.py`) -/

/-- `get_contacts(limit, offset, db, user)` with its parameters bound to
dynamically-typed values, exactly as Python binds whatever the caller passed:
builds `select(Contact).filter_by(user=user).offset(offset).limit(limit)`,
executes it on `db`, and returns all rows. -/
def get_contacts_dyn (limit offset : Nat) (db : PyVal) (user : PyVal) :
    Except PyErr (List Contact) := do
  let crit ← contactUserCriterion user
  let rows ← executeContacts db crit
  return (rows.drop offset).take limit

/-- `get_contacts` at its declared types: the page of the user's own contacts
selected by `offset`/`limit`. -/
def get_contacts (limit offset : Nat) (db : DB) (user : User) : List Contact :=
  (((db.contacts.filter (fun c => c.user_id == some user.id)).drop offset).take limit)

/-- `get_contact(contact_id, db, user)`: the body runs
`select(Contact).where(Contact.id == contact_id, user=user)` — one positional
criterion plus the keyword argument `user`, which `Select.where` does not
accept, so the call raises `TypeError`. -/
def get_contact (contact_id : Nat) (db : DB) (user : User) :
    Except PyErr (Option Contact) := do
  let rows ← selectWhere db.contacts (fun c => c.id == contact_id) ["user"]
  return scalarsFirst rows

/-- Fresh primary key for an inserted contact row. -/
def freshContactId (db : DB) : Nat :=
  db.contacts.foldl (fun m c => max m c.id) 0 + 1

/-- Pydantic `ContactSchema` after validation (`src/schemas.py`). -/
structure ContactSchema where
  first_name : String
  last_name : String
  email : String
  phone_number : String
  birthday : Date
  created_date : Option Date
  deriving DecidableEq, Repr

/-- Pydantic `ContactUpdateSchema` after validation (`src/schemas.py`). -/
structure ContactUpdateSchema where
  first_name : String
  last_name : String
  email : String
  phone_number : String
  birthday : Date
  update_date : Option Date
  deriving DecidableEq, Repr

/-- `ContactSchema.__init__(**data)`: first `super().__init__(**data)` sets
every declared field, `created_date` included, from the caller's payload;
then `self.created_date = date.today()` overwrites it. -/
def ContactSchema.construct (data : ContactSchema) (today : Date) :
    ContactSchema :=
  { data with created_date := some today }

/-- `ContactUpdateSchema.__init__(**data)`: sets every field from the payload,
then overwrites `update_date` with `date.today()`. -/
def ContactUpdateSchema.construct (data : ContactUpdateSchema) (today : Date) :
    ContactUpdateSchema :=
  { data with update_date := some today }

/-- `create_contact(body, db, user)`: builds a `Contact` row from the body's
fields with the caller as owner, adds it, commits, and returns the refreshed
entity. -/
def create_contact (body : ContactSchema) (db : DB) (user : User) :
    Contact × DB :=
  let c : Contact :=
    { id := freshContactId db
      first_name := body.first_name
      last_name := body.last_name
      email := body.email
      phone_number := body.phone_number
      birthday := body.birthday
      created_date := body.created_date
      update_date := none
      user_id := some user.id }
  (c, { db with contacts := db.contacts ++ [c] })

/-- `remove_contact(contact_id, body, db, user)`: looks the contact up with
`filter_by(id=contact_id, user=user)` and `scalar_one_or_none()`; if found,
deletes that row and commits; either way returns the looked-up value.  The
`body` parameter is accepted and unused, exactly as in the source. -/
def remove_contact (contact_id : Nat) (body : ContactSchema) (db : DB)
    (user : User) : Except PyErr (Option Contact × DB) := do
  let contact ← scalarOneOrNone
    (db.contacts.filter (fun c => c.id == contact_id && c.user_id == some user.id))
  match contact with
  | some c =>
      return (some c, { db with contacts := db.contacts.eraseP (fun x => x.id == c.id) })
  | none => return (none, db)

/-- `get_upcoming_birthdays(db)`: selects every contact — no owner filter —
whose stored `birthday` date lies between today and today + 7 days,
inclusive, comparing full dates with no year wraparound. -/
def get_upcoming_birthdays (today : Date) (db : DB) : List Contact :=
  db.contacts.filter (fun c => today ≤ c.birthday && c.birthday ≤ today + 7)

/-! ## Contact routes (`src/routes/contact.py`) -/

/-- Route `GET /contacts/` (`read_contacts`, the first and therefore effective
handler registered for that path): it calls
`get_contacts(skip, limit, current_user, db)`, so Python binds `limit := skip`,
`offset := limit`, `db := current_user` and `user := db`. -/
def read_contacts (skip limit : Nat) (db : DB) (current_user : User) :
    Except PyErr (List Contact) :=
  get_contacts_dyn skip limit (PyVal.usr current_user) (PyVal.sess db)

/-- Route `GET /contacts/{contact_id}`: delegates to the repository
`get_contact` and turns a `None` result into HTTP 404. -/
def get_contact_route (contact_id : Nat) (db : DB) (user : User) :
    Except PyErr Contact :=
  match get_contact contact_id db user with
  | Except.error e => Except.error e
  | Except.ok none => Except.error (PyErr.httpError 404 "NOT FOUND")
  | Except.ok (some c) => Except.ok c

/-- Route `POST /contacts/` (status 201): delegates to `create_contact` and
returns the created row. -/
def create_contact_route (body : ContactSchema) (db : DB) (user : User) :
    Except PyErr (Nat × Contact) × DB :=
  let (c, db') := create_contact body db user
  (Except.ok (201, c), db')

/-- Route `DELETE /contacts/{contact_id}`: it calls
`remove_contact(contact_id, db, user)` — three arguments for a function with
four required positional parameters `(contact_id, body, db, user)` — so
Python raises `TypeError` at the call and the repository body never runs. -/
def delete_contact_route (contact_id : Nat) (db : DB) (user : User) :
    Except PyErr Contact × DB :=
  (Except.error PyErr.typeError, db)

/-- Route `GET /contacts/upcoming-birthdays/`: returns the repository result
unchanged; no authenticated user is resolved or passed. -/
def get_upcoming_birthdays_route (today : Date) (db : DB) : List Contact :=
  get_upcoming_birthdays today db

/-! ## User repository (`src/repository/users.py`) -/

/-- Pydantic `UserSchema` after validation (`src/schemas.py`). -/
structure UserSchema where
  username : String
  email : String
  password : String
  deriving DecidableEq, Repr

/-- `get_user_by_email(email, db)`:
`select(User).filter_by(email=email)` then `scalar_one_or_none()`. -/
def get_user_by_email (email : String) (db : DB) : Except PyErr (Option User) :=
  scalarOneOrNone (db.users.filter (fun u => u.email == email))

/-- Fresh primary key for an inserted user row. -/
def freshUserId (db : DB) : Nat :=
  db.users.foldl (fun m u => max m u.id) 0 + 1

/-- `create_user(body, db)`: best-effort Gravatar lookup (`grav` returns
`none` when the lookup raised and was logged), then persists
`User(**body.model_dump(), avatar=avatar)` — so `confirmed` and
`refresh_token` take their column defaults — commits, and returns the
refreshed entity. -/
def create_user (grav : String → Option String) (body : UserSchema) (db : DB) :
    User × DB :=
  let avatar := grav body.email
  let new_user : User :=
    { id := freshUserId db
      username := body.username
      email := body.email
      password := body.password
      avatar := avatar
      refresh_token := none
      confirmed := false }
  (new_user, { db with users := db.users ++ [new_user] })

/-- `update_token(user, token, db)`: sets `user.refresh_token = token` and
commits; in the table, the row with that user's primary key gets the new
token. -/
def update_token (user : User) (token : Option String) (db : DB) : DB :=
  { db with
    users := db.users.map (fun u =>
      if u.id == user.id then { u with refresh_token := token } else u) }

/-- The committed effect of `user.confirmed = True`: the row with the user's
primary key has `confirmed` set. -/
def setConfirmedDB (db : DB) (u : User) : DB :=
  { db with
    users := db.users.map (fun x =>
      if x.id == u.id then { x with confirmed := true } else x) }

/-- Repository `confirmed_email(email, db)`: re-loads the user by email and
sets `confirmed = True`; if the lookup yields `None`, the attribute
assignment on `None` raises `AttributeError`. -/
def users_confirmed_email (email : String) (db : DB) : Except PyErr DB := do
  let user ← get_user_by_email email db
  match user with
  | none => Except.error PyErr.attributeError
  | some u => return setConfirmedDB db u

/-- `update_avatar(email, url, db)`: loads the user by email and overwrites
the avatar URL (an `AttributeError` if no user has that email). -/
def update_avatar (email : String) (url : String) (db : DB) :
    Except PyErr (User × DB) := do
  let user ← get_user_by_email email db
  match user with
  | none => Except.error PyErr.attributeError
  | some u =>
      let u' := { u with avatar := some url }
      return (u', { db with
        users := db.users.map (fun x => if x.id == u.id then u' else x) })

/-! ## Auth routes (`src/routes/auth.py`)

The `auth_service` primitives live in `src/services/auth.py`, which is not
among the repository sources; they enter as abstract parameters:
`hash` (password hashing), `verify` (password verification), `atok`/`rtok`
(access/refresh token factories keyed by the subject email), and decoders
that return the subject email of a presented token (`none` when the service
rejected the token). -/

/-- The body of a successful signup response:
`{"user": new_user, "detail": "User successfully created"}` with status 201. -/
structure SignupResponse where
  user : User
  detail : String
  deriving DecidableEq, Repr

/-- A successful login/refresh response:
access and refresh tokens plus the fixed token type. -/
structure TokenPair where
  access_token : String
  refresh_token : String
  token_type : String
  deriving DecidableEq, Repr

/-- Route `POST /auth/signup` (status 201): 409 Conflict when the email is
already registered, otherwise hash the password, create the user (the
confirmation email only goes to a background task), and return the created
user. -/
def signup (hash : String → String) (grav : String → Option String)
    (body : UserSchema) (db : DB) :
    Except PyErr (Nat × SignupResponse) × DB :=
  match get_user_by_email body.email db with
  | Except.error e => (Except.error e, db)
  | Except.ok (some _) =>
      (Except.error (PyErr.httpError 409 "Account already exists"), db)
  | Except.ok none =>
      let body' := { body with password := hash body.password }
      let (new_user, db') := create_user grav body' db
      (Except.ok (201, { user := new_user, detail := "User successfully created" }), db')

/-- Route `POST /auth/login`: 401 for an unknown email, an unconfirmed
account, or a non-verifying password; otherwise issues an access/refresh
pair, persists the refresh token, and returns the pair. -/
def login (verify : String → String → Bool) (atok rtok : String → String)
    (username password : String) (db : DB) :
    Except PyErr TokenPair × DB :=
  match get_user_by_email username db with
  | Except.error e => (Except.error e, db)
  | Except.ok none =>
      (Except.error (PyErr.httpError 401 "Invalid email"), db)
  | Except.ok (some user) =>
      if !user.confirmed then
        (Except.error (PyErr.httpError 401 "Email not confirmed"), db)
      else if !verify password user.password then
        (Except.error (PyErr.httpError 401 "Invalid password"), db)
      else
        let access_token := atok user.email
        let refresh_token := rtok user.email
        (Except.ok { access_token := access_token,
                     refresh_token := refresh_token,
                     token_type := "bearer" },
         update_token user (some refresh_token) db)

/-- Route `GET /auth/refresh_token`: decodes the bearer token to an email
(`decode` is `auth_service.decode_refresh_token`, rejecting with 401 when it
returns no email), loads the user, and compares `user.refresh_token` with the
presented token — on `None` the attribute access raises `AttributeError`.  A
mismatch revokes the stored token and answers 401; a match issues and
persists a fresh pair. -/
def refresh_token_route (decode : String → Option String)
    (atok rtok : String → String) (token : String) (db : DB) :
    Except PyErr TokenPair × DB :=
  match decode token with
  | none =>
      (Except.error (PyErr.httpError 401 "Could not validate credentials"), db)
  | some email =>
      match get_user_by_email email db with
      | Except.error e => (Except.error e, db)
      | Except.ok none => (Except.error PyErr.attributeError, db)
      | Except.ok (some user) =>
          if user.refresh_token != some token then
            (Except.error (PyErr.httpError 401 "Invalid refresh token"),
             update_token user none db)
          else
            let access_token := atok email
            let refresh_token := rtok email
            (Except.ok { access_token := access_token,
                         refresh_token := refresh_token,
                         token_type := "bearer" },
             update_token user (some refresh_token) db)

/-- Route `GET /auth/confirmed_email/{token}`: decodes the token to an email
(`getEmail` is `auth_service.get_email_from_token`), 400 when the email
belongs to no user, the idempotent message when already confirmed, otherwise
the repository marks the account confirmed. -/
def confirmed_email_route (getEmail : String → Option String) (token : String)
    (db : DB) : Except PyErr String × DB :=
  match getEmail token with
  | none =>
      (Except.error (PyErr.httpError 422 "Invalid token for email verification"), db)
  | some email =>
      match get_user_by_email email db with
      | Except.error e => (Except.error e, db)
      | Except.ok none =>
          (Except.error (PyErr.httpError 400 "Verification error"), db)
      | Except.ok (some user) =>
          if user.confirmed then
            (Except.ok "Your email is already confirmed", db)
          else
            match users_confirmed_email email db with
            | Except.error e => (Except.error e, db)
            | Except.ok db' => (Except.ok "Email confirmed", db')

/-! ## Database invariants and lookup lemmas

The schema declares `users.email` and the contact primary key unique
(`models.py`), which is what makes the `scalar_one_or_none()` calls safe;
the invariants below record exactly that. -/

/-- No two stored users share an email (column `users.email` is `unique`). -/
def EmailsUnique (db : DB) : Prop :=
  (db.users.map User.email).Nodup

instance (db : DB) : Decidable (EmailsUnique db) := by
  unfold EmailsUnique; infer_instance

/-- No two stored contacts share a primary key. -/
def ContactIdsUnique (db : DB) : Prop :=
  (db.contacts.map Contact.id).Nodup

instance (db : DB) : Decidable (ContactIdsUnique db) := by
  unfold ContactIdsUnique; infer_instance

/-- A filter whose predicate pins down a key keeps at most one element of a
list whose keys are distinct. -/
lemma filter_keyed_length_le_one {α κ : Type} [DecidableEq κ] (key : α → κ)
    (k : κ) (p : α → Bool) (hp : ∀ a, p a = true → key a = k) :
    ∀ l : List α, (l.map key).Nodup → (l.filter p).length ≤ 1 := by
  intro l
  induction l with
  | nil => intro _; simp
  | cons a t ih =>
    intro hnd
    rw [List.map_cons, List.nodup_cons] at hnd
    by_cases hpa : p a = true
    · rw [List.filter_cons_of_pos hpa]
      have hnil : t.filter p = [] := by
        rw [List.filter_eq_nil_iff]
        intro b hb hpb
        have hkb : key b = k := hp b hpb
        have hka : key a = k := hp a hpa
        exact hnd.1 (by rw [hka, ← hkb]; exact List.mem_map_of_mem key hb)
      rw [hnil]
      simp
    · rw [List.filter_cons_of_neg (by simpa using hpa)]
      exact ih hnd.2

/-- On a result set of at most one row, `scalar_one_or_none` cannot raise:
it returns the head of the set. -/
lemma scalarOneOrNone_eq_head {α : Type} (l : List α) (h : l.length ≤ 1) :
    scalarOneOrNone l = Except.ok l.head? := by
  match l with
  | [] => rfl
  | [a] => rfl
  | a :: b :: t => simp at h

/-- A list of length at most one containing `a` is exactly `[a]`. -/
lemma eq_singleton_of_length_le_one {α : Type} {l : List α} {a : α}
    (h : l.length ≤ 1) (ha : a ∈ l) : l = [a] := by
  match l with
  | [] => cases ha
  | [b] => cases ha with
    | head => rfl
    | tail _ hb => cases hb
  | b :: c :: t => simp at h

/-- With unique emails, looking up a stored user's email finds that user. -/
lemma get_user_by_email_found {db : DB} {e : String} {u : User}
    (h : EmailsUnique db) (hu : u ∈ db.users) (he : u.email = e) :
    get_user_by_email e db = Except.ok (some u) := by
  have hlen : (db.users.filter (fun v => v.email == e)).length ≤ 1 :=
    filter_keyed_length_le_one User.email e _ (fun a ha => by simpa using ha)
      db.users h
  have hmem : u ∈ db.users.filter (fun v => v.email == e) :=
    List.mem_filter.mpr ⟨hu, by simpa using he⟩
  rw [get_user_by_email, eq_singleton_of_length_le_one hlen hmem]
  rfl

/-- Looking up an email no stored user has yields `None` (and raises
nothing). -/
lemma get_user_by_email_notfound {db : DB} {e : String}
    (h : ∀ u ∈ db.users, u.email ≠ e) :
    get_user_by_email e db = Except.ok none := by
  have : db.users.filter (fun v => v.email == e) = [] := by
    rw [List.filter_eq_nil_iff]
    intro u hu hue
    exact h u hu (by simpa using hue)
  rw [get_user_by_email, this]
  rfl

/-- Deleting by a contact's primary key from a table with distinct keys
removes that row and nothing else. -/
lemma eraseP_by_unique_id {l : List Contact} (hn : (l.map Contact.id).Nodup)
    {c : Contact} (hc : c ∈ l) :
    c ∉ l.eraseP (fun x => x.id == c.id) ∧
      ∀ x ∈ l, x ≠ c → x ∈ l.eraseP (fun x => x.id == c.id) := by
  induction l with
  | nil => cases hc
  | cons a t ih =>
    rw [List.map_cons, List.nodup_cons] at hn
    by_cases hac : a.id = c.id
    · have hceq : c = a := by
        cases hc with
        | head => rfl
        | tail _ hct =>
          exact absurd (by rw [hac]; exact List.mem_map_of_mem Contact.id hct) hn.1
      rw [List.eraseP_cons_of_pos (by simpa using hac)]
      constructor
      · intro hmem
        exact hn.1 (hceq ▸ List.mem_map_of_mem Contact.id hmem)
      · intro x hx hxc
        cases hx with
        | head => exact absurd hceq.symm hxc
        | tail _ hxt => exact hxt
    · have hct : c ∈ t := by
        cases hc with
        | head => exact absurd rfl hac
        | tail _ hct => exact hct
      rw [List.eraseP_cons_of_neg (by simpa using hac)]
      have ihr := ih hn.2 hct
      constructor
      · intro hmem
        cases hmem with
        | head => exact hac rfl
        | tail _ hm => exact ihr.1 hm
      · intro x hx hxc
        cases hx with
        | head => exact List.mem_cons_self _ _
        | tail _ hxt => exact List.mem_cons_of_mem _ (ihr.2 x hxt hxc)

/-- No two stored users share a primary key. -/
def UserIdsUnique (db : DB) : Prop :=
  (db.users.map User.id).Nodup

instance (db : DB) : Decidable (UserIdsUnique db) := by
  unfold UserIdsUnique; infer_instance

/-- `confirmed` never drops back from `true`: every confirmed user of `db`
still has a confirmed row with the same primary key in `db'`. -/
def ConfirmedMono (db db' : DB) : Prop :=
  ∀ u ∈ db.users, u.confirmed = true →
    ∃ u' ∈ db'.users, u'.id = u.id ∧ u'.confirmed = true

/-- A row-wise table rewrite that keeps primary keys and never clears
`confirmed` is monotone in `confirmed`. -/
lemma confirmedMono_map (db : DB) (f : User → User)
    (hid : ∀ x ∈ db.users, (f x).id = x.id)
    (hcf : ∀ x ∈ db.users, x.confirmed = true → (f x).confirmed = true) :
    ConfirmedMono db { db with users := db.users.map f } :=
  fun u hu hc => ⟨f u, List.mem_map_of_mem f hu, hid u hu, hcf u hu hc⟩

/-- After `update_token`, the row with the target user's primary key stores
exactly the new token value. -/
lemma update_token_persists (user : User) (tok : Option String) (db : DB) :
    ∀ v ∈ (update_token user tok db).users, v.id = user.id →
      v.refresh_token = tok := by
  intro v hv hid
  rcases List.mem_map.mp hv with ⟨u0, hu0, heq⟩
  by_cases h0 : (u0.id == user.id) = true
  · rw [if_pos h0] at heq
    rw [← heq]
  · rw [if_neg h0] at heq
    subst heq
    exact absurd (by simpa using hid) h0

/-- `setConfirmedDB` keeps the users' emails, hence email uniqueness. -/
lemma emailsUnique_setConfirmed {db : DB} (h : EmailsUnique db) (u : User) :
    EmailsUnique (setConfirmedDB db u) := by
  unfold EmailsUnique setConfirmedDB
  simp only [List.map_map]
  have hf : (User.email ∘ fun x =>
      if x.id == u.id then { x with confirmed := true } else x) = User.email := by
    funext x
    simp only [Function.comp_apply]
    split
    · rfl
    · rfl
  rw [hf]
  exact h

/-- A successful user lookup returns a stored row with the looked-up email. -/
lemma get_user_by_email_mem {db : DB} {e : String} {u : User}
    (h : get_user_by_email e db = Except.ok (some u)) :
    u ∈ db.users ∧ u.email = e := by
  unfold get_user_by_email at h
  cases hl : db.users.filter (fun v => v.email == e) with
  | nil =>
      rw [hl] at h
      exact absurd (Except.ok.inj h) (by simp)
  | cons a t =>
      cases t with
      | nil =>
          rw [hl] at h
          have hau : a = u := by simpa using Except.ok.inj h
          have ham : a ∈ db.users.filter (fun v => v.email == e) := by
            rw [hl]; exact List.mem_cons_self a []
          rcases List.mem_filter.mp ham with ⟨hmem, hme⟩
          exact ⟨hau ▸ hmem, hau ▸ (by simpa using hme)⟩
      | cons b t2 =>
          rw [hl] at h
          exact Except.noConfusion h

/-! ## Sample data for concrete evaluations -/

/-- A contact row with the given key, birthday and owner. -/
def sampleContact (i : Nat) (bday : Date) (owner : Nat) : Contact :=
  { id := i, first_name := "First", last_name := "Last"
    email := "", phone_number := "", birthday := bday
    created_date := none, update_date := none, user_id := some owner }

/-- A confirmed user holding refresh token `"rt1"`. -/
def aliceU : User :=
  { id := 1, username := "alice", email := "alice@example.com"
    password := "hash1", avatar := none
    refresh_token := some "rt1", confirmed := true }

/-- An unconfirmed user with no refresh token. -/
def bobU : User :=
  { id := 2, username := "bobby", email := "bob@example.com"
    password := "hash2", avatar := none
    refresh_token := none, confirmed := false }

/-- A small database: two users, one contact owned by each. -/
def db0 : DB :=
  { users := [aliceU, bobU]
    contacts := [sampleContact 1 100 1, sampleContact 2 200 2] }

/-- Contacts with birthdays at offsets 0, 3, 7 and 8 days from day 100,
owned by two different users. -/
def bdayDB : DB :=
  { users := []
    contacts := [sampleContact 1 100 1, sampleContact 2 103 2,
                 sampleContact 3 107 1, sampleContact 4 108 2] }

/-- A contact-creation payload for the sample contact. -/
def sampleBody : ContactSchema :=
  { first_name := "First", last_name := "Last", email := ""
    phone_number := "", birthday := 100, created_date := none }

/-! ## Claim theorems -/

/-- C1: the get-by-id operation never returns an owned contact and never
answers 404: its query `select(Contact).where(Contact.id == contact_id,
user=user)` passes the keyword argument `user` to `Select.where`, so both the
repository call and the route raise `TypeError` on every input — a server
error in place of the specified contact-or-404 behavior, with no owner
scoping ever applied. -/
theorem C1_get_by_id_always_raises (contact_id : Nat) (db : DB) (u : User) :
    get_contact contact_id db u = Except.error PyErr.typeError ∧
    get_contact_route contact_id db u = Except.error PyErr.typeError :=
  ⟨rfl, rfl⟩

/-- C2: the effective `GET /contacts/` handler passes its arguments as
`get_contacts(skip, limit, current_user, db)` against the parameter list
`(limit, offset, db, user)`, so building `filter_by(user=<session>)` raises
and the route never returns a page; the same repository function with its
parameters threaded as declared returns exactly the offset/limit page of the
caller's own stored contacts. -/
theorem C2_list_route_misthreaded (skip limit offset : Nat) (db : DB)
    (u : User) (c : Contact) (hc : c ∈ get_contacts limit offset db u) :
    read_contacts skip limit db u = Except.error PyErr.unmappedInstanceError ∧
    get_contacts_dyn limit offset (PyVal.sess db) (PyVal.usr u) =
      Except.ok (get_contacts limit offset db u) ∧
    c.user_id = some u.id ∧ c ∈ db.contacts := by
  refine ⟨rfl, rfl, ?_, ?_⟩
  · have h1 : c ∈ (db.contacts.filter
        (fun x => x.user_id == some u.id)).drop offset :=
      List.take_subset _ _ hc
    have h2 : c ∈ db.contacts.filter (fun x => x.user_id == some u.id) :=
      List.drop_subset _ _ h1
    have := (List.mem_filter.mp h2).2
    simpa using this
  · have h1 : c ∈ (db.contacts.filter
        (fun x => x.user_id == some u.id)).drop offset :=
      List.take_subset _ _ hc
    have h2 : c ∈ db.contacts.filter (fun x => x.user_id == some u.id) :=
      List.drop_subset _ _ h1
    exact (List.mem_filter.mp h2).1

/-- Witness for C2 at a concrete database holding a contact owned by the
caller. -/
theorem C2_list_route_misthreaded_witness :
    read_contacts 0 100 db0 aliceU = Except.error PyErr.unmappedInstanceError ∧
    get_contacts_dyn 100 0 (PyVal.sess db0) (PyVal.usr aliceU) =
      Except.ok (get_contacts 100 0 db0 aliceU) ∧
    (sampleContact 1 100 1).user_id = some aliceU.id ∧
    sampleContact 1 100 1 ∈ db0.contacts :=
  C2_list_route_misthreaded 0 100 0 db0 aliceU (sampleContact 1 100 1)
    (by decide)

/-- C4: a contact is returned by the upcoming-birthdays query exactly when
its stored birthday date lies in the inclusive window `[today, today + 7]` —
for every contact of the database, whoever owns it — and on the concrete
database with birthdays at offsets 0, 3, 7 and 8 from day 100 the query
returns exactly the offset-0, 3 and 7 contacts; the offset-8 contact (an
early-January date when day 100 is late December) is not returned, since
dates are compared as-is with no year wraparound. -/
theorem C4_upcoming_birthdays_window (today : Date) (db : DB) (c : Contact) :
    (c ∈ get_upcoming_birthdays today db ↔
       c ∈ db.contacts ∧ today ≤ c.birthday ∧ c.birthday ≤ today + 7) ∧
    get_upcoming_birthdays_route 100 bdayDB =
      [sampleContact 1 100 1, sampleContact 2 103 2, sampleContact 3 107 1] := by
  constructor
  · unfold get_upcoming_birthdays
    rw [List.mem_filter]
    simp [and_assoc]
  · decide

/-- C9: a validated creation payload has `created_date` forced to the
construction day whatever the caller supplied, a validated update payload has
`update_date` forced likewise, and the contact row built and stored by
`create_contact` carries that same creation-day `created_date`. -/
theorem C9_schema_forces_dates (data : ContactSchema)
    (udata : ContactUpdateSchema) (today : Date) (db : DB) (u : User) :
    (ContactSchema.construct data today).created_date = some today ∧
    (ContactUpdateSchema.construct udata today).update_date = some today ∧
    ((create_contact (ContactSchema.construct data today) db u).1).created_date
      = some today ∧
    ((create_contact (ContactSchema.construct data today) db u).2).contacts =
      db.contacts ++ [(create_contact (ContactSchema.construct data today) db u).1] :=
  ⟨rfl, rfl, rfl, rfl⟩

/-- C10: when the presented refresh token decodes to an email for which no
user is stored, the handler runs `user.refresh_token` on `None` and raises
`AttributeError` — a server error, not the 401 Unauthorized of the
mismatch/revoke branch, which is therefore reachable only when the user
exists. -/
theorem C10_refresh_derefs_absent_user (decode : String → Option String)
    (atok rtok : String → String) (token email : String) (db : DB)
    (hdec : decode token = some email)
    (hnone : get_user_by_email email db = Except.ok none) :
    refresh_token_route decode atok rtok token db =
      (Except.error PyErr.attributeError, db) := by
  unfold refresh_token_route
  rw [hdec]
  dsimp only
  rw [hnone]

/-- C3: the delete route calls `remove_contact(contact_id, db, user)` — three
arguments for the four required positional parameters
`(contact_id, body, db, user)` — so the endpoint raises `TypeError` on every
request and never deletes or answers 404; the repository `remove_contact`
itself, called as declared, removes exactly the matching owned contact and
returns its pre-deletion state, or returns `None` and deletes nothing when no
owned match exists. -/
theorem C3_delete_route_wrong_arity (contact_id : Nat) (body : ContactSchema)
    (db : DB) (u : User) (hids : ContactIdsUnique db) :
    delete_contact_route contact_id db u = (Except.error PyErr.typeError, db) ∧
    (∀ c ∈ db.contacts, c.id = contact_id → c.user_id = some u.id →
       remove_contact contact_id body db u =
         Except.ok (some c,
           { db with contacts := db.contacts.eraseP (fun x => x.id == c.id) }) ∧
       c ∉ db.contacts.eraseP (fun x => x.id == c.id) ∧
       ∀ x ∈ db.contacts, x ≠ c →
         x ∈ db.contacts.eraseP (fun y => y.id == c.id)) ∧
    ((∀ c ∈ db.contacts, ¬(c.id = contact_id ∧ c.user_id = some u.id)) →
       remove_contact contact_id body db u = Except.ok (none, db)) := by
  refine ⟨rfl, ?_, ?_⟩
  · intro c hc hcid huid
    have hlen : (db.contacts.filter
        (fun x => x.id == contact_id && x.user_id == some u.id)).length ≤ 1 :=
      filter_keyed_length_le_one Contact.id contact_id _
        (fun a ha => by
          rw [Bool.and_eq_true] at ha
          simpa using ha.1) db.contacts hids
    have hmem : c ∈ db.contacts.filter
        (fun x => x.id == contact_id && x.user_id == some u.id) :=
      List.mem_filter.mpr ⟨hc, by simp [hcid, huid]⟩
    have hsing := eq_singleton_of_length_le_one hlen hmem
    refine ⟨?_, (eraseP_by_unique_id hids hc).1,
            (eraseP_by_unique_id hids hc).2⟩
    unfold remove_contact
    rw [hsing]
    rfl
  · intro hno
    have hnil : db.contacts.filter
        (fun x => x.id == contact_id && x.user_id == some u.id) = [] := by
      rw [List.filter_eq_nil_iff]
      intro a ha hpa
      rw [Bool.and_eq_true] at hpa
      exact hno a ha ⟨by simpa using hpa.1, by simpa using hpa.2⟩
    unfold remove_contact
    rw [hnil]
    rfl

/-- Witness for C3 at the sample database: the route raises while the
repository function deletes the caller's own contact. -/
theorem C3_delete_route_wrong_arity_witness :
    delete_contact_route 1 db0 aliceU = (Except.error PyErr.typeError, db0) ∧
    remove_contact 1 sampleBody db0 aliceU =
      Except.ok (some (sampleContact 1 100 1),
        { db0 with
          contacts := db0.contacts.eraseP (fun x => x.id == (sampleContact 1 100 1).id) }) := by
  have h := C3_delete_route_wrong_arity 1 sampleBody db0 aliceU (by decide)
  exact ⟨h.1, (h.2.1 (sampleContact 1 100 1) (by decide) rfl rfl).1⟩

/-- C5: with unique stored emails, signup on an already-registered email
answers 409 Conflict and leaves the user table unchanged; on a fresh email it
appends exactly one user carrying the hashed password, unconfirmed and
without refresh token, and answers 201 with that user. -/
theorem C5_signup_conflict_or_create (hash : String → String)
    (grav : String → Option String) (body : UserSchema) (db : DB)
    (h : EmailsUnique db) :
    ((∃ u ∈ db.users, u.email = body.email) →
       signup hash grav body db =
         (Except.error (PyErr.httpError 409 "Account already exists"), db)) ∧
    ((∀ u ∈ db.users, u.email ≠ body.email) →
       ∃ nu : User,
         signup hash grav body db =
           (Except.ok (201, { user := nu, detail := "User successfully created" }),
            { db with users := db.users ++ [nu] }) ∧
         nu.email = body.email ∧ nu.username = body.username ∧
         nu.password = hash body.password ∧ nu.confirmed = false ∧
         nu.refresh_token = none) := by
  constructor
  · rintro ⟨u, hu, he⟩
    have hg := get_user_by_email_found h hu he
    unfold signup
    rw [hg]
  · intro hno
    have hg := get_user_by_email_notfound hno
    refine ⟨{ id := freshUserId db, username := body.username,
              email := body.email, password := hash body.password,
              avatar := grav body.email, refresh_token := none,
              confirmed := false }, ?_, rfl, rfl, rfl, rfl, rfl⟩
    unfold signup
    rw [hg]
    rfl

/-- Witness for C5: signing up with a stored user's email conflicts. -/
theorem C5_signup_witness :
    signup id (fun _ => none)
      { username := "alice2", email := "alice@example.com", password := "pw" }
      db0 =
      (Except.error (PyErr.httpError 409 "Account already exists"), db0) :=
  (C5_signup_conflict_or_create id (fun _ => none)
      { username := "alice2", email := "alice@example.com", password := "pw" }
      db0 (by decide)).1 (by decide)

/-- C6: with unique stored emails, login answers 401 when the email matches
no user, when the matched user is unconfirmed, and when the password does not
verify; when none of the three holds it returns a bearer access/refresh pair
and persists the new refresh token on the user's row. -/
theorem C6_login_branches (verify : String → String → Bool)
    (atok rtok : String → String) (username password : String) (db : DB)
    (h : EmailsUnique db) :
    ((∀ u ∈ db.users, u.email ≠ username) →
       login verify atok rtok username password db =
         (Except.error (PyErr.httpError 401 "Invalid email"), db)) ∧
    (∀ user ∈ db.users, user.email = username →
       (user.confirmed = false →
          login verify atok rtok username password db =
            (Except.error (PyErr.httpError 401 "Email not confirmed"), db)) ∧
       (user.confirmed = true → verify password user.password = false →
          login verify atok rtok username password db =
            (Except.error (PyErr.httpError 401 "Invalid password"), db)) ∧
       (user.confirmed = true → verify password user.password = true →
          login verify atok rtok username password db =
            (Except.ok { access_token := atok user.email,
                         refresh_token := rtok user.email,
                         token_type := "bearer" },
             update_token user (some (rtok user.email)) db) ∧
          ∀ v ∈ (update_token user (some (rtok user.email)) db).users,
            v.id = user.id → v.refresh_token = some (rtok user.email))) := by
  constructor
  · intro hno
    have hg := get_user_by_email_notfound hno
    unfold login
    rw [hg]
  · intro user hu he
    have hg := get_user_by_email_found h hu he
    refine ⟨?_, ?_, ?_⟩
    · intro hc
      unfold login
      rw [hg]
      dsimp only
      rw [hc]
      rfl
    · intro hc hv
      unfold login
      rw [hg]
      dsimp only
      rw [hc, hv]
      rfl
    · intro hc hv
      refine ⟨?_, update_token_persists user _ db⟩
      unfold login
      rw [hg]
      dsimp only
      rw [hc, hv]
      rfl

/-- Witness for C6: the confirmed sample user with a verifying password gets
a token pair and the persisted refresh token. -/
theorem C6_login_witness :
    login (fun _ _ => true) id id "alice@example.com" "pw" db0 =
      (Except.ok { access_token := "alice@example.com",
                   refresh_token := "alice@example.com",
                   token_type := "bearer" },
       update_token aliceU (some "alice@example.com") db0) :=
  (((C6_login_branches (fun _ _ => true) id id "alice@example.com" "pw" db0
      (by decide)).2 aliceU (by decide) rfl).2.2 rfl rfl).1

/-- C7: when the refresh token decodes to the email of a stored user, a
mismatch with the stored `refresh_token` clears that stored token and answers
401; a match issues a fresh access/refresh pair and persists the new refresh
token on the user's row. -/
theorem C7_refresh_match_or_revoke (decode : String → Option String)
    (atok rtok : String → String) (token email : String) (db : DB) (u : User)
    (hdec : decode token = some email)
    (hu : get_user_by_email email db = Except.ok (some u)) :
    (u.refresh_token ≠ some token →
       refresh_token_route decode atok rtok token db =
         (Except.error (PyErr.httpError 401 "Invalid refresh token"),
          update_token u none db) ∧
       ∀ v ∈ (update_token u none db).users, v.id = u.id →
         v.refresh_token = none) ∧
    (u.refresh_token = some token →
       refresh_token_route decode atok rtok token db =
         (Except.ok { access_token := atok email, refresh_token := rtok email,
                      token_type := "bearer" },
          update_token u (some (rtok email)) db) ∧
       ∀ v ∈ (update_token u (some (rtok email)) db).users, v.id = u.id →
         v.refresh_token = some (rtok email)) := by
  constructor
  · intro hne
    refine ⟨?_, update_token_persists u none db⟩
    unfold refresh_token_route
    rw [hdec]
    dsimp only
    rw [hu]
    dsimp only
    have hb : (u.refresh_token != some token) = true := by
      simpa using hne
    rw [hb]
    rfl
  · intro heq
    refine ⟨?_, update_token_persists u _ db⟩
    unfold refresh_token_route
    rw [hdec]
    dsimp only
    rw [hu]
    dsimp only
    have hb : (u.refresh_token != some token) = false := by
      simp [heq]
    rw [hb]
    rfl

/-- Witness for C7: presenting a token different from the stored one revokes
the stored token and fails with 401. -/
theorem C7_refresh_witness :
    refresh_token_route (fun _ => some "alice@example.com") id id "stolen"
      db0 =
      (Except.error (PyErr.httpError 401 "Invalid refresh token"),
       update_token aliceU none db0) :=
  ((C7_refresh_match_or_revoke (fun _ => some "alice@example.com") id id
      "stolen" "alice@example.com" db0 aliceU rfl rfl).1 (by decide)).1

/-- C8: with unique stored emails and primary keys, email confirmation
answers 400 Bad Request and changes nothing when the token's email matches no
user; returns the idempotent "already confirmed" message and changes nothing
when the user is already confirmed; otherwise sets `confirmed` on that user's
row once, after which a second confirmation returns the "already confirmed"
message and changes nothing — and every user-repository operation
(`create_user`, `update_token`, `confirmed_email`, `update_avatar`) keeps
every already-confirmed user confirmed. -/
theorem C8_confirm_idempotent_monotonic (getEmail : String → Option String)
    (grav : String → Option String) (token email : String) (db : DB)
    (h : EmailsUnique db) (hid : UserIdsUnique db)
    (hdec : getEmail token = some email) :
    ((∀ u ∈ db.users, u.email ≠ email) →
       confirmed_email_route getEmail token db =
         (Except.error (PyErr.httpError 400 "Verification error"), db)) ∧
    (∀ u ∈ db.users, u.email = email →
       (u.confirmed = true →
          confirmed_email_route getEmail token db =
            (Except.ok "Your email is already confirmed", db)) ∧
       (u.confirmed = false →
          confirmed_email_route getEmail token db =
            (Except.ok "Email confirmed", setConfirmedDB db u) ∧
          confirmed_email_route getEmail token (setConfirmedDB db u) =
            (Except.ok "Your email is already confirmed",
             setConfirmedDB db u))) ∧
    (∀ body : UserSchema, ConfirmedMono db (create_user grav body db).2) ∧
    (∀ v tok, ConfirmedMono db (update_token v tok db)) ∧
    (∀ e db', users_confirmed_email e db = Except.ok db' →
       ConfirmedMono db db') ∧
    (∀ e url r, update_avatar e url db = Except.ok r →
       ConfirmedMono db r.2) := by
  refine ⟨?_, ?_, ?_, ?_, ?_, ?_⟩
  · intro hno
    have hg := get_user_by_email_notfound hno
    unfold confirmed_email_route
    rw [hdec]
    dsimp only
    rw [hg]
  · intro u hu he
    have hg := get_user_by_email_found h hu he
    constructor
    · intro hc
      unfold confirmed_email_route
      rw [hdec]
      dsimp only
      rw [hg]
      dsimp only
      rw [hc]
      rfl
    · intro hc
      have husers : users_confirmed_email email db =
          Except.ok (setConfirmedDB db u) := by
        unfold users_confirmed_email
        rw [hg]
        rfl
      constructor
      · unfold confirmed_email_route
        rw [hdec]
        dsimp only
        rw [hg]
        dsimp only
        rw [hc]
        rw [husers]
        rfl
      · have hEU := emailsUnique_setConfirmed h u
        have hu' : ({ u with confirmed := true } : User) ∈
            (setConfirmedDB db u).users := by
          unfold setConfirmedDB
          have hmm := List.mem_map_of_mem
            (fun x => if x.id == u.id then { x with confirmed := true } else x)
            hu
          have hfe : (fun x => if x.id == u.id then { x with confirmed := true } else x) u
              = ({ u with confirmed := true } : User) := by
            simp
          rw [hfe] at hmm
          exact hmm
        have hg' := get_user_by_email_found hEU hu'
          (show ({ u with confirmed := true } : User).email = email from he)
        unfold confirmed_email_route
        rw [hdec]
        dsimp only
        rw [hg']
        rfl
  · intro body
    exact fun v hv hc => ⟨v, List.mem_append_left _ hv, rfl, hc⟩
  · intro v tok
    exact confirmedMono_map db _
      (fun x _ => by
        by_cases hx : (x.id == v.id) = true
        · simp [hx]
        · simp [hx])
      (fun x _ hcx => by
        by_cases hx : (x.id == v.id) = true
        · simp [hx, hcx]
        · simp [hx, hcx])
  · intro e db' h'
    unfold users_confirmed_email at h'
    cases hg : get_user_by_email e db with
    | error err =>
        rw [hg] at h'
        exact Except.noConfusion h'
    | ok o =>
        rw [hg] at h'
        cases o with
        | none => exact Except.noConfusion h'
        | some u0 =>
            have hdb : setConfirmedDB db u0 = db' := Except.ok.inj h'
            rw [← hdb]
            exact confirmedMono_map db _
              (fun x _ => by
                by_cases hx : (x.id == u0.id) = true
                · simp [hx]
                · simp [hx])
              (fun x _ hcx => by
                by_cases hx : (x.id == u0.id) = true
                · simp [hx]
                · simp [hx, hcx])
  · intro e url r h'
    unfold update_avatar at h'
    cases hg : get_user_by_email e db with
    | error err =>
        rw [hg] at h'
        exact Except.noConfusion h'
    | ok o =>
        rw [hg] at h'
        cases o with
        | none => exact Except.noConfusion h'
        | some u0 =>
            rcases get_user_by_email_mem hg with ⟨hu0, _⟩
            have hr := Except.ok.inj h'
            rw [← hr]
            exact confirmedMono_map db _
              (fun x hx => by
                by_cases hxe : (x.id == u0.id) = true
                · have hxid : x.id = u0.id := by simpa using hxe
                  simp [hxe, hxid]
                · simp [hxe])
              (fun x hx hcx => by
                by_cases hxe : (x.id == u0.id) = true
                · have hxid : x.id = u0.id := by simpa using hxe
                  have hxu : x = u0 :=
                    List.inj_on_of_nodup_map hid hx hu0 hxid
                  simp [hxe, ← hxu, hcx]
                · simp [hxe, hcx])

/-- Witness for C8: confirming the unconfirmed sample user succeeds and sets
`confirmed` on their row. -/
theorem C8_confirm_witness :
    confirmed_email_route (fun _ => some "bob@example.com") "tok" db0 =
      (Except.ok "Email confirmed", setConfirmedDB db0 bobU) :=
  (((C8_confirm_idempotent_monotonic (fun _ => some "bob@example.com")
      (fun _ => none) "tok" "bob@example.com" db0 (by decide) (by decide)
      rfl).2.1 bobU (by decide) rfl).2 rfl).1

/-- Witness for C10: an empty store and a token decoding to some email. -/
theorem C10_refresh_derefs_absent_user_witness :
    refresh_token_route (fun _ => some "ghost@example.com") id id "tok"
      { users := [], contacts := [] } =
      (Except.error PyErr.attributeError, { users := [], contacts := [] }) :=
  C10_refresh_derefs_absent_user (fun _ => some "ghost@example.com") id id
    "tok" "ghost@example.com" { users := [], contacts := [] } rfl rfl

end ContactsApp
